import Mathlib

/-!
Shallow embedding of the basket-cygne-app standings scrapers
(`src/scraper.py` and `src/scrapper.py`).

HTML markup is modelled at the level of the parsed DOM that the code
actually inspects: a document is a list of tables, a table a list of
rows, a row a list of cells, each cell either a header cell (`th`) or a
data cell (`td`) carrying its flattened text content.  The markup parser
(BeautifulSoup) is a black-box collaborator; everything after it is
translated line by line from the Python source.
-/

namespace BasketCygne

/-- Python `str.split()` splits on runs of whitespace.  `splitWS`
splits at every whitespace character, producing an empty piece for each
boundary, exactly like splitting on a single character; the empty
pieces are filtered out below, which yields Python's semantics. -/
def splitWS : List Char → List (List Char)
  | [] => [[]]
  | c :: cs =>
    if c.isWhitespace then [] :: splitWS cs
    else
      match splitWS cs with
      | [] => [[c]]
      | w :: ws => (c :: w) :: ws

/-- Python `s.split()` (no separator): whitespace runs, empties dropped. -/
def pyWords (l : List Char) : List (List Char) :=
  (splitWS l).filter (fun w => !w.isEmpty)

/-- `" ".join(ws)` at the character-list level. -/
def joinSep : List (List Char) → List Char
  | [] => []
  | [w] => w
  | w :: ws => w ++ ' ' :: joinSep ws

/-- The whitespace normalisation from `clean_text` in `scraper.py`:
`" ".join(s.split())`, collapsing whitespace runs and trimming ends. -/
def normalizeL (l : List Char) : List Char :=
  joinSep (pyWords l)

/-- `clean_text` of `scraper.py` applied to a cell whose flattened text
is `s`: `" ".join(s.split())`. -/
def clean_text (s : String) : String :=
  ⟨normalizeL s.data⟩

/-- Python `str.strip()`: drop leading and trailing whitespace. -/
def pyStrip (l : List Char) : List Char :=
  ((l.dropWhile Char.isWhitespace).reverse.dropWhile Char.isWhitespace).reverse

/-- `str.strip()` on strings (used by `scrapper.py`). -/
def strip (s : String) : String :=
  ⟨pyStrip s.data⟩

/-- Python's substring test `needle in hay` on character lists. -/
def containsSub (needle : List Char) : List Char → Bool
  | [] => needle.isEmpty
  | c :: cs => needle.isPrefixOf (c :: cs) || containsSub needle cs

/-- Python's substring test `needle in hay` on strings. -/
def strIn (needle hay : String) : Bool :=
  containsSub needle.data hay.data

/-- Python `str.lower()`, character by character (the headers involved
are ASCII). -/
def lowerAscii (s : String) : String :=
  ⟨s.data.map Char.toLower⟩

/-- A table cell: a header cell (`<th>`) or a data cell (`<td>`),
carrying its flattened text content. -/
inductive Cell where
  | th : String → Cell
  | td : String → Cell
deriving DecidableEq, Repr

/-- A table row (`<tr>`): its cells in document order. -/
structure HRow where
  cells : List Cell
deriving DecidableEq, Repr

/-- A table (`<table>`): its rows in document order. -/
structure HTable where
  rows : List HRow
deriving DecidableEq, Repr

/-- Texts of the header cells of a row, in document order
(`row.find_all("th")`). -/
def HRow.ths (r : HRow) : List String :=
  r.cells.filterMap (fun c => match c with | .th s => some s | .td _ => none)

/-- Texts of the data cells of a row, in document order
(`row.find_all("td")`). -/
def HRow.tds (r : HRow) : List String :=
  r.cells.filterMap (fun c => match c with | .th _ => none | .td s => some s)

/-- All header-cell texts of a table, in document order
(`table.find_all("th")`). -/
def HTable.headerTexts (t : HTable) : List String :=
  (t.rows.map HRow.ths).flatten

/-- Flattened text content of a single cell. -/
def Cell.text : Cell → String
  | .th s => s
  | .td s => s

/-- One standings record (`entry` dict of `scraper.py`, `team_data`
dict of `scrapper.py`). -/
structure Standing where
  rank : String
  name : String
  points : String
  played : String
  won : String
  lost : String
deriving DecidableEq, Repr

end BasketCygne

namespace BasketCygne.Scraper

/- ### Embedding of `src/scraper.py` -/

def URL : String :=
  "https://competitions.ffbb.com/ligues/guy/comites/0973/clubs/guy0973007/equipes/200000005178873/classement"

/-- `" ".join(clean_text(th).lower() for th in table.find_all("th"))`,
the header blob inspected by `find_target_table`. -/
def header_blob (t : HTable) : String :=
  ⟨joinSep ((t.headerTexts.map (fun s => lowerAscii (clean_text s))).map String.data)⟩

/-- The keyword heuristic of `find_target_table`: the header blob
contains `"pts"` and one of `"equipe"`, `"rang"`, `"classement"`. -/
def tableQualifies (t : HTable) : Bool :=
  strIn "pts" (header_blob t) &&
    (strIn "equipe" (header_blob t) || strIn "rang" (header_blob t) ||
      strIn "classement" (header_blob t))

/-- `find_target_table`: first table of the document satisfying the
keyword heuristic. -/
def find_target_table (doc : List HTable) : Option HTable :=
  doc.find? tableQualifies

/-- The `entry` dict built by `parse_standings` from the data cells of
one row (guarded by `len(cells) >= 3`, so `getD` defaults are inert for
indices 0..2 and match the explicit length tests for 3..5). -/
def mkEntry (cells : List String) : Standing :=
  { rank := clean_text (cells.getD 0 "")
    name := clean_text (cells.getD 1 "")
    points := clean_text (cells.getD 2 "")
    played := if 3 < cells.length then clean_text (cells.getD 3 "") else ""
    won := if 4 < cells.length then clean_text (cells.getD 4 "") else ""
    lost := if 5 < cells.length then clean_text (cells.getD 5 "") else "" }

/-- The body of the row loop: rows with fewer than 3 data cells are
skipped (`continue`), others produce an entry. -/
def rowEntry (cells : List String) : Option Standing :=
  if cells.length < 3 then none else some (mkEntry cells)

/-- `parse_standings` of `scraper.py`, over the parsed document. -/
def parse_standings (doc : List HTable) : List Standing × Option String :=
  match find_target_table doc with
  | none => ([], some "Standings table not found")
  | some t =>
    if (t.rows.filterMap (fun r => rowEntry r.tds)).isEmpty then
      ([], some "No standings rows parsed")
    else (t.rows.filterMap (fun r => rowEntry r.tds), none)

/-- The snapshot dict produced by `build_payload`.  `updated_at` is the
clock value, supplied by the caller. -/
structure Payload where
  updated_at : String
  source : String
  standings : List Standing
  standing_count : Nat
  status : String
  warning : Option String
deriving DecidableEq, Repr

/-- `build_payload`, with the ambient clock made an explicit `now`
argument. -/
def build_payload (now : String) (standings : List Standing)
    (warning : Option String) : Payload :=
  { updated_at := now
    source := URL
    standings := standings
    standing_count := standings.length
    status := if warning = none then "ok" else "degraded"
    warning := warning }

/-- `load_existing_payload`: reading/parsing the output file is the
black-box argument `raw`; any failure (missing file or unparsable JSON)
is caught and collapses to the empty dict, modelled as `none`. -/
def load_existing_payload (raw : Except Unit Payload) : Option Payload :=
  match raw with
  | .ok p => some p
  | .error _ => none

/-- The body of `main`, with the ambient inputs made explicit: the clock
`now`, the previous-file read `raw`, and the fetch outcome
(`fetched` is the parsed document when `fetch_html` returned truthy
markup, `none` when it returned `None` or empty markup;
`fetch_error` is its error component). -/
def runMain (now : String) (raw : Except Unit Payload)
    (fetched : Option (List HTable)) (fetch_error : Option String) : Payload :=
  let previous := load_existing_payload raw
  let parsed := match fetched with
    | some doc => parse_standings doc
    | none => ([], none)
  let warning := match fetch_error with
    | some e => some e
    | none => parsed.2
  let prevRows := match previous with
    | some p => p.standings
    | none => []
  let fallback := parsed.1.isEmpty && !prevRows.isEmpty
  let standings := if fallback then prevRows else parsed.1
  let warning2 :=
    if fallback then some (warning.getD "Using last known standings (new scrape failed)")
    else warning
  build_payload now standings warning2

/-- `save_payload`: the new content of the output file (a write always
replaces the file's state). -/
def save_payload (p : Payload) : Option Payload :=
  some p

/-- One full run of `main`: returns the state of the output file after
the run (`none` would mean no write happened). -/
def mainStep (now : String) (raw : Except Unit Payload)
    (fetched : Option (List HTable)) (fetch_error : Option String) : Option Payload :=
  save_payload (runMain now raw fetched fetch_error)

/-- Ambient state visible to the process: a clock and a network.
`parse_standings` receives it in `parse_standings_in` only to make
explicit that it reads none of it — the source function's sole
parameter is the markup. -/
structure World where
  clock : Nat
  network : String → String

/-- `parse_standings` as run inside a world: the function ignores the
world entirely. -/
def parse_standings_in (_w : World) (doc : List HTable) : List Standing × Option String :=
  parse_standings doc

end BasketCygne.Scraper

namespace BasketCygne.Scrapper

/- ### Embedding of `src/scrapper.py` -/

/-- `table.find("th")` truthiness: the table has at least one header
cell. -/
def hasTh (t : HTable) : Bool :=
  t.rows.any (fun r => r.cells.any (fun c => match c with | .th _ => true | .td _ => false))

/-- `table.text`: concatenation of all cell texts of the table, in
document order. -/
def tableText (t : HTable) : String :=
  ⟨(((t.rows.map (fun r => r.cells.map Cell.text)).flatten).map String.data).flatten⟩

/-- The table search of `scrapper.py`: first table with a `th` whose
full text contains `"Pts"` (case-sensitive). -/
def find_target_table (doc : List HTable) : Option HTable :=
  doc.find? (fun t => hasTh t && strIn "Pts" (tableText t))

/-- The `team_data` dict of `scrapper.py`: `rank`/`points`/`played`/
`won`/`lost` are `.strip()`ped, `name` is stripped then
whitespace-collapsed. -/
def mkEntry (cols : List String) : Standing :=
  { rank := strip (cols.getD 0 "")
    name := clean_text (strip (cols.getD 1 ""))
    points := strip (cols.getD 2 "")
    played := strip (cols.getD 3 "")
    won := strip (cols.getD 4 "")
    lost := strip (cols.getD 5 "") }

/-- The body of the row loop of `scrapper.py`: rows with at most 2 data
cells are skipped by the `len(cols) > 2` guard; rows with 3..5 data
cells enter the `try` block but raise `IndexError` at `cols[3]`,
`cols[4]` or `cols[5]` and are skipped by the `except`; only rows with
at least 6 data cells produce a record. -/
def rowEntry (cols : List String) : Option Standing :=
  if 2 < cols.length then
    if 6 ≤ cols.length then some (mkEntry cols) else none
  else none

/-- `parse_standings` of `scrapper.py` (returns only the list; the
missing-table case prints and returns `[]`). -/
def parse_standings (doc : List HTable) : List Standing :=
  match find_target_table doc with
  | none => []
  | some t => t.rows.filterMap (fun r => rowEntry r.tds)

end BasketCygne.Scrapper

namespace BasketCygne

/- ### Concrete fixtures used by the witnesses -/

/-- A table whose headers mention none of the keyword markers. -/
def junkTable : HTable :=
  ⟨[⟨[.th "Calendrier", .th "Horaires"]⟩, ⟨[.td "x", .td "y", .td "z"]⟩]⟩

/-- A qualifying table with one header row and no data rows. -/
def headerOnlyTable : HTable :=
  ⟨[⟨[.th "Rang", .th "Equipe", .th "Pts"]⟩]⟩

/-- A qualifying table with one header row and one three-cell data
row. -/
def smallTable : HTable :=
  ⟨[⟨[.th "Rang", .th "Equipe", .th "Pts"]⟩,
    ⟨[.td " 1 ", .td "Club  A", .td "20"]⟩]⟩

/-- A table with a header row and one six-cell data row; it qualifies
for both scrapers. -/
def sixCellTable : HTable :=
  ⟨[⟨[.th "Rang", .th "Equipe", .th "Pts"]⟩,
    ⟨[.td "1", .td " Club  B ", .td "20", .td "10", .td "9", .td "1"]⟩]⟩

/-- A previous snapshot holding one standings row. -/
def samplePayload : Scraper.Payload :=
  { updated_at := "2026-01-01T00:00:00+00:00"
    source := Scraper.URL
    standings := [Standing.mk "1" "Club A" "20" "" "" ""]
    standing_count := 1
    status := "ok"
    warning := none }

end BasketCygne

namespace BasketCygne

/- ### Basic lemmas about the text utilities -/

theorem splitWS_ne_nil (l : List Char) : splitWS l ≠ [] := by
  cases l with
  | nil => simp [splitWS]
  | cons c cs =>
    simp only [splitWS]
    split
    · simp
    · split <;> simp

theorem mem_splitWS_no_ws (l : List Char) :
    ∀ w ∈ splitWS l, ∀ c ∈ w, ¬ c.isWhitespace := by
  induction l with
  | nil =>
    intro w hw c hc
    simp [splitWS] at hw
    subst hw
    simp at hc
  | cons a as ih =>
    intro w hw c hc
    by_cases ha : a.isWhitespace
    · rw [splitWS, if_pos ha] at hw
      rcases List.mem_cons.mp hw with hw | hw
      · subst hw; simp at hc
      · exact ih w hw c hc
    · rw [splitWS, if_neg ha] at hw
      cases hsw : splitWS as with
      | nil => exact absurd hsw (splitWS_ne_nil as)
      | cons x xs =>
        rw [hsw] at hw
        rcases List.mem_cons.mp hw with hw | hw
        · subst hw
          rcases List.mem_cons.mp hc with hc | hc
          · subst hc; exact ha
          · exact ih x (hsw ▸ List.mem_cons_self x xs) c hc
        · exact ih w (hsw ▸ List.mem_cons_of_mem x hw) c hc

theorem mem_pyWords (l : List Char) :
    ∀ w ∈ pyWords l, w ≠ [] ∧ ∀ c ∈ w, ¬ c.isWhitespace := by
  intro w hw
  simp only [pyWords, List.mem_filter] at hw
  refine ⟨?_, mem_splitWS_no_ws l w hw.1⟩
  have := hw.2
  simpa [List.isEmpty_iff] using this

theorem splitWS_append_of_no_ws (w xs : List Char) (y : List Char) (ys : List (List Char))
    (hw : ∀ c ∈ w, ¬ c.isWhitespace) (hxs : splitWS xs = y :: ys) :
    splitWS (w ++ xs) = (w ++ y) :: ys := by
  induction w with
  | nil => simpa using hxs
  | cons a as ih =>
    have ha : ¬ a.isWhitespace := hw a (List.mem_cons_self a as)
    have has : ∀ c ∈ as, ¬ c.isWhitespace := fun c hc => hw c (List.mem_cons_of_mem a hc)
    have hrec := ih has
    rw [List.cons_append, splitWS, if_neg ha, hrec]
    rfl

theorem splitWS_of_no_ws (w : List Char) (hw : ∀ c ∈ w, ¬ c.isWhitespace) :
    splitWS w = [w] := by
  have h0 : splitWS ([] : List Char) = [] :: [] := by simp [splitWS]
  have := splitWS_append_of_no_ws w [] [] [] hw h0
  simpa using this

theorem pyWords_joinSep (ws : List (List Char))
    (h : ∀ w ∈ ws, w ≠ [] ∧ ∀ c ∈ w, ¬ c.isWhitespace) :
    pyWords (joinSep ws) = ws := by
  induction ws with
  | nil => simp [joinSep, pyWords, splitWS]
  | cons w rest ih =>
    cases rest with
    | nil =>
      have hw := h w (List.mem_cons_self w [])
      simp only [joinSep]
      rw [pyWords, splitWS_of_no_ws w hw.2]
      simp [List.isEmpty_iff, hw.1]
    | cons v rest2 =>
      have hw := h w (List.mem_cons_self w _)
      have hrest : ∀ u ∈ v :: rest2, u ≠ [] ∧ ∀ c ∈ u, ¬ c.isWhitespace :=
        fun u hu => h u (List.mem_cons_of_mem w hu)
      have hjoin : joinSep (w :: v :: rest2) = w ++ ' ' :: joinSep (v :: rest2) := rfl
      cases hJ : splitWS (joinSep (v :: rest2)) with
      | nil => exact absurd hJ (splitWS_ne_nil _)
      | cons y ys =>
        have hsp : splitWS (' ' :: joinSep (v :: rest2)) = [] :: y :: ys := by
          rw [splitWS, if_pos (by simp : (' ' : Char).isWhitespace = true), hJ]
        rw [hjoin, pyWords,
          splitWS_append_of_no_ws w _ [] (y :: ys) hw.2 hsp, List.append_nil,
          List.filter_cons]
        have hwkeep : (!(w.isEmpty)) = true := by
          simp [List.isEmpty_iff, hw.1]
        rw [if_pos hwkeep]
        have hIH := ih hrest
        rw [pyWords, hJ] at hIH
        rw [hIH]

theorem normalizeL_idem (l : List Char) : normalizeL (normalizeL l) = normalizeL l := by
  unfold normalizeL
  rw [pyWords_joinSep (pyWords l) (mem_pyWords l)]

/- ### Generic list lemmas -/

theorem find?_first_qualifying {α : Type} (p : α → Bool) (pre : List α) (t : α)
    (post : List α) (hpre : ∀ u ∈ pre, p u = false) (ht : p t = true) :
    (pre ++ t :: post).find? p = some t := by
  induction pre with
  | nil => simp [List.find?_cons, ht]
  | cons a pre ih =>
    have ha := hpre a (List.mem_cons_self a pre)
    rw [List.cons_append, List.find?_cons, ha]
    exact ih (fun u hu => hpre u (List.mem_cons_of_mem a hu))

theorem filterMap_eq_map_filter {α β : Type} (f : α → Option β) (p : α → Bool)
    (g : α → β) (h : ∀ a, f a = if p a then some (g a) else none) (l : List α) :
    l.filterMap f = (l.filter p).map g := by
  induction l with
  | nil => simp
  | cons a l ih =>
    rw [List.filterMap_cons, List.filter_cons, h a]
    by_cases hp : p a = true
    · simp only [hp, if_pos, List.map_cons, ih]
    · simp only [hp, if_neg, Bool.false_eq_true, not_false_eq_true, ih]

end BasketCygne

namespace BasketCygne

/- ### Claim theorems -/

/-- Claim C8: the whitespace normalisation applied to every cell
(collapse whitespace runs to single spaces, trim the ends) is
idempotent: `clean_text (clean_text s) = clean_text s` for every
string `s`. -/
theorem clean_text_idempotent (s : String) :
    clean_text (clean_text s) = clean_text s :=
  congrArg String.mk (normalizeL_idem s.data)

/-- Claim C2: for every standings list and warning value,
`build_payload` produces a snapshot with `standing_count` equal to the
length of the standings, and with status `"degraded"` exactly when the
warning is non-null (hence `"ok"` exactly when it is null). -/
theorem scraper_build_payload_invariants (now : String)
    (standings : List Standing) (warning : Option String) :
    (Scraper.build_payload now standings warning).standing_count = standings.length ∧
    ((Scraper.build_payload now standings warning).status = "degraded" ↔ warning ≠ none) := by
  refine ⟨rfl, ?_⟩
  cases warning with
  | none => simp [Scraper.build_payload]
  | some e => simp [Scraper.build_payload]

/-- Claim C6: for every combination of fetch outcome (markup or error)
and previous-file read outcome, a run of `main` builds a snapshot and
writes the output file: `mainStep` always yields a written payload. -/
theorem scraper_main_always_writes (now : String) (raw : Except Unit Scraper.Payload)
    (fetched : Option (List HTable)) (fetch_error : Option String) :
    ∃ p, Scraper.mainStep now raw fetched fetch_error = some p :=
  ⟨Scraper.runMain now raw fetched fetch_error, rfl⟩

/-- Claim C7: `parse_standings` is a deterministic pure function of the
markup: its result is independent of the ambient world (clock,
network), so two runs on identical markup return identical rows. -/
theorem scraper_parse_standings_deterministic (w₁ w₂ : Scraper.World)
    (doc : List HTable) :
    Scraper.parse_standings_in w₁ doc = Scraper.parse_standings_in w₂ doc :=
  rfl

/-- Claim C9: `parse_standings` returns a null warning exactly when the
returned row sequence is non-empty; it never pairs rows with a warning
and never returns an empty sequence without a warning. -/
theorem scraper_parse_standings_warning_iff_no_rows (doc : List HTable) :
    (Scraper.parse_standings doc).2 = none ↔ (Scraper.parse_standings doc).1 ≠ [] := by
  cases hfind : Scraper.find_target_table doc with
  | none => simp [Scraper.parse_standings, hfind]
  | some t =>
    by_cases he : (t.rows.filterMap (fun r => Scraper.rowEntry r.tds)).isEmpty
    · simp [Scraper.parse_standings, hfind, he]
    · simp only [Scraper.parse_standings, hfind, he, if_neg, Bool.false_eq_true,
        not_false_eq_true]
      simp only [List.isEmpty_iff] at he
      simp [he]

/-- Claim C1: whenever the document contains a qualifying table (header
blob containing the points marker and a team/rank/standings marker),
`parse_standings` selects the first such table in document order and
returns exactly one record per row of that table having at least 3 data
cells, in document order, with rank/name/points from data cells 0/1/2,
played/won/lost from cells 3/4/5 when present and `""` otherwise, every
field whitespace-normalised. -/
theorem scraper_parse_standings_first_table_rows
    (doc pre post : List HTable) (t : HTable)
    (hdoc : doc = pre ++ t :: post)
    (hpre : ∀ u ∈ pre, Scraper.tableQualifies u = false)
    (ht : Scraper.tableQualifies t = true) :
    (Scraper.parse_standings doc).1 =
      (t.rows.filter (fun r => 3 ≤ r.tds.length)).map (fun r =>
        Standing.mk (clean_text (r.tds.getD 0 "")) (clean_text (r.tds.getD 1 ""))
          (clean_text (r.tds.getD 2 ""))
          (if 3 < r.tds.length then clean_text (r.tds.getD 3 "") else "")
          (if 4 < r.tds.length then clean_text (r.tds.getD 4 "") else "")
          (if 5 < r.tds.length then clean_text (r.tds.getD 5 "") else "")) := by
  subst hdoc
  have hfind : Scraper.find_target_table (pre ++ t :: post) = some t :=
    find?_first_qualifying _ pre t post hpre ht
  have hmap : t.rows.filterMap (fun r => Scraper.rowEntry r.tds) =
      (t.rows.filter (fun r => 3 ≤ r.tds.length)).map (fun r =>
        Standing.mk (clean_text (r.tds.getD 0 "")) (clean_text (r.tds.getD 1 ""))
          (clean_text (r.tds.getD 2 ""))
          (if 3 < r.tds.length then clean_text (r.tds.getD 3 "") else "")
          (if 4 < r.tds.length then clean_text (r.tds.getD 4 "") else "")
          (if 5 < r.tds.length then clean_text (r.tds.getD 5 "") else "")) := by
    apply filterMap_eq_map_filter
    intro r
    by_cases h3 : r.tds.length < 3
    · rw [Scraper.rowEntry, if_pos h3, if_neg]
      simp only [decide_eq_true_eq]
      exact Nat.not_le.mpr h3
    · rw [Scraper.rowEntry, if_neg h3, if_pos]
      · rfl
      · simp only [decide_eq_true_eq]
        exact Nat.le_of_not_lt h3
  by_cases he : (t.rows.filterMap (fun r => Scraper.rowEntry r.tds)).isEmpty
  · have hnil : t.rows.filterMap (fun r => Scraper.rowEntry r.tds) = [] :=
      List.isEmpty_iff.mp he
    rw [← hmap, hnil]
    simp [Scraper.parse_standings, hfind, he]
  · rw [← hmap]
    simp [Scraper.parse_standings, hfind, he]

/-- Witness for C1: a document whose first table does not qualify and
whose second does, holding one three-cell data row. -/
theorem scraper_parse_standings_first_table_rows_witness :
    (Scraper.parse_standings [junkTable, smallTable]).1 =
      [Standing.mk "1" "Club A" "20" "" "" ""] := by
  have h := scraper_parse_standings_first_table_rows [junkTable, smallTable]
    [junkTable] [] smallTable rfl (by decide) (by decide)
  rw [h]
  decide

/-- Claim C3: when the previous snapshot holds a non-empty standings
list and the run's extraction yields no rows (fetch failed, markup was
empty, or parsing produced nothing), the new snapshot carries exactly
the previous rows and a non-null warning. -/
theorem scraper_main_fallback_preserves_previous
    (now : String) (raw : Except Unit Scraper.Payload)
    (fetched : Option (List HTable)) (fetch_error : Option String)
    (p : Scraper.Payload)
    (hprev : Scraper.load_existing_payload raw = some p)
    (hN : p.standings ≠ [])
    (hfail : (match fetched with
        | some doc => (Scraper.parse_standings doc).1
        | none => ([] : List Standing)) = []) :
    (Scraper.runMain now raw fetched fetch_error).standings = p.standings ∧
    (Scraper.runMain now raw fetched fetch_error).standing_count = p.standings.length ∧
    (Scraper.runMain now raw fetched fetch_error).warning ≠ none := by
  have hne : p.standings.isEmpty = false := by
    simp [List.isEmpty_iff, hN]
  cases fetched with
  | none =>
    cases fetch_error with
    | none => simp [Scraper.runMain, hprev, hne, Scraper.build_payload]
    | some e => simp [Scraper.runMain, hprev, hne, Scraper.build_payload]
  | some doc =>
    simp only at hfail
    cases fetch_error with
    | none => simp [Scraper.runMain, hprev, hne, hfail, Scraper.build_payload]
    | some e => simp [Scraper.runMain, hprev, hne, hfail, Scraper.build_payload]

/-- Witness for C3: a previous snapshot with one row and a run whose
fetch produced nothing. -/
theorem scraper_main_fallback_preserves_previous_witness :
    (Scraper.runMain "now" (Except.ok samplePayload) none none).standings =
      samplePayload.standings ∧
    (Scraper.runMain "now" (Except.ok samplePayload) none none).standing_count =
      samplePayload.standings.length ∧
    (Scraper.runMain "now" (Except.ok samplePayload) none none).warning ≠ none :=
  scraper_main_fallback_preserves_previous "now" (Except.ok samplePayload) none none
    samplePayload rfl (by decide) rfl

/-- Counterexample to C4 as stated: on a document with no qualifying
table the warning returned by `parse_standings` is
`"Standings table not found"`, not `"table not found"`. -/
theorem scraper_table_not_found_message_cex :
    (Scraper.parse_standings []).2 = some "Standings table not found" ∧
    (Scraper.parse_standings []).2 ≠ some "table not found" := by
  decide

/-- Claim C4 (amended): for every document in which no table qualifies
under the header-keyword heuristic, `parse_standings` returns an empty
row sequence with the warning `"Standings table not found"`. -/
theorem scraper_no_qualifying_table_warning
    (doc : List HTable) (h : ∀ t ∈ doc, Scraper.tableQualifies t = false) :
    Scraper.parse_standings doc = ([], some "Standings table not found") := by
  have hfind : Scraper.find_target_table doc = none := by
    rw [Scraper.find_target_table, List.find?_eq_none]
    intro x hx
    simp [h x hx]
  simp [Scraper.parse_standings, hfind]

/-- Witness for the amended C4: a document holding one non-qualifying
table. -/
theorem scraper_no_qualifying_table_warning_witness :
    Scraper.parse_standings [junkTable] = ([], some "Standings table not found") :=
  scraper_no_qualifying_table_warning [junkTable] (by decide)

/-- Counterexample to C5 as stated: on a document whose selected table
has no row with at least 3 data cells, the warning returned by
`parse_standings` is `"No standings rows parsed"`, not
`"no rows parsed"`. -/
theorem scraper_no_rows_message_cex :
    (Scraper.parse_standings [headerOnlyTable]).2 = some "No standings rows parsed" ∧
    (Scraper.parse_standings [headerOnlyTable]).2 ≠ some "no rows parsed" := by
  decide

/-- Claim C5 (amended): when a table is selected but none of its rows
has at least 3 data cells, `parse_standings` returns an empty row
sequence with the warning `"No standings rows parsed"`. -/
theorem scraper_no_qualifying_rows_warning
    (doc : List HTable) (t : HTable)
    (hfind : Scraper.find_target_table doc = some t)
    (hrows : ∀ r ∈ t.rows, r.tds.length < 3) :
    Scraper.parse_standings doc = ([], some "No standings rows parsed") := by
  have hfm : t.rows.filterMap (fun r => Scraper.rowEntry r.tds) = [] := by
    rw [List.filterMap_eq_nil_iff]
    intro r hr
    rw [Scraper.rowEntry, if_pos (hrows r hr)]
  simp [Scraper.parse_standings, hfind, hfm]

/-- Witness for the amended C5: a qualifying table consisting of a
header row only. -/
theorem scraper_no_qualifying_rows_warning_witness :
    Scraper.parse_standings [headerOnlyTable] = ([], some "No standings rows parsed") :=
  scraper_no_qualifying_rows_warning [headerOnlyTable] headerOnlyTable (by decide)
    (by decide)

/-- In `scrapper.py`, a row produces a record exactly when it has at
least 6 data cells, and the record is built from cells 0..5. -/
theorem scrapper_rowEntry_some {cols : List String} {e : Standing}
    (h : Scrapper.rowEntry cols = some e) :
    6 ≤ cols.length ∧ e = Scrapper.mkEntry cols := by
  rw [Scrapper.rowEntry] at h
  by_cases h2 : 2 < cols.length
  · rw [if_pos h2] at h
    by_cases h6 : 6 ≤ cols.length
    · rw [if_pos h6] at h
      exact ⟨h6, (Option.some.inj h).symm⟩
    · rw [if_neg h6] at h
      exact absurd h (by simp)
  · rw [if_neg h2] at h
    exact absurd h (by simp)

/-- Claim C10: every record returned by `parse_standings` of
`scrapper.py` originates from a row of the selected table having at
least 6 data cells, with all six fields taken from cells 0 through 5;
rows with 3, 4 or 5 data cells are silently dropped (the `IndexError`
path), never padded with empty strings. -/
theorem scrapper_records_require_six_cells
    (doc : List HTable) (e : Standing) (cols : List String) :
    (e ∈ Scrapper.parse_standings doc →
      ∃ t r, Scrapper.find_target_table doc = some t ∧ r ∈ t.rows ∧
        6 ≤ r.tds.length ∧
        e = Standing.mk (strip (r.tds.getD 0 "")) (clean_text (strip (r.tds.getD 1 "")))
              (strip (r.tds.getD 2 "")) (strip (r.tds.getD 3 ""))
              (strip (r.tds.getD 4 "")) (strip (r.tds.getD 5 ""))) ∧
    (2 < cols.length → cols.length < 6 → Scrapper.rowEntry cols = none) := by
  constructor
  · intro he
    cases hfind : Scrapper.find_target_table doc with
    | none =>
      rw [Scrapper.parse_standings, hfind] at he
      simp at he
    | some t =>
      rw [Scrapper.parse_standings, hfind] at he
      obtain ⟨r, hr, hre⟩ := List.mem_filterMap.mp he
      obtain ⟨h6, heq⟩ := scrapper_rowEntry_some hre
      exact ⟨t, r, rfl, hr, h6, heq⟩
  · intro h2 h6
    rw [Scrapper.rowEntry, if_pos h2, if_neg (Nat.not_le.mpr h6)]

/-- Witness for C10: a document whose table has one six-cell data row,
and a three-cell row that is dropped. -/
theorem scrapper_records_require_six_cells_witness :
    (∃ t r, Scrapper.find_target_table [sixCellTable] = some t ∧ r ∈ t.rows ∧
      6 ≤ r.tds.length ∧
      Standing.mk "1" "Club B" "20" "10" "9" "1" =
        Standing.mk (strip (r.tds.getD 0 "")) (clean_text (strip (r.tds.getD 1 "")))
          (strip (r.tds.getD 2 "")) (strip (r.tds.getD 3 ""))
          (strip (r.tds.getD 4 "")) (strip (r.tds.getD 5 ""))) ∧
    Scrapper.rowEntry ["a", "b", "c"] = none :=
  ⟨(scrapper_records_require_six_cells [sixCellTable]
      (Standing.mk "1" "Club B" "20" "10" "9" "1") ["a", "b", "c"]).1 (by decide),
   (scrapper_records_require_six_cells [sixCellTable]
      (Standing.mk "1" "Club B" "20" "10" "9" "1") ["a", "b", "c"]).2 (by decide)
      (by decide)⟩

end BasketCygne
